import Mathlib

/-!
Verification of the graceful-shutdown program in `src/main.rs`
(tonic-shutdown-example).

The shallow embedding below models:
- `Latch` (a zero-permit `tokio::sync::Semaphore`; `latch()` closes it,
  `wait()` is `acquire()`, which on a zero-permit semaphore can only resolve
  through the closed error);
- the orchestration in `main`: block on `shutdown.wait()`, mark the health
  status `NotServing`, then race the spawned server task's join handle
  against the grace timer with `tokio::select!`;
- the fallible startup sequence (reflection-service build, signal-handler
  installation, address parsing), each of which aborts `main` via `?`
  before the server task is spawned.

Time is discrete (milliseconds, `Nat`). An execution is described by the
times of delivered SIGINTs, an optional time at which the server task fails
organically, the time the drain takes after the latch closes, the configured
grace period, and the poll order `tokio::select!` happens to use when both
branches of the race are ready in the same instant (the macro polls branches
in random order, so this is genuine nondeterminism of the program).
-/

set_option autoImplicit false

namespace TonicShutdown

/-- The `tonic_health::ServingStatus` values used by the program. -/
inductive ServingStatus
  | Serving
  | NotServing
deriving DecidableEq

/-- The `Latch` of `main.rs`: a `Semaphore::new(0)` whose only observable
state is whether it has been closed (`Semaphore::close`). -/
structure Latch where
  closed : Bool
deriving DecidableEq

namespace Latch

/-- `Latch::new()`: a zero-permit semaphore, not closed. -/
def new : Latch := ⟨false⟩

/-- `Latch::latch()`: `Semaphore::close()`. Closing is permanent; closing an
already-closed semaphore changes nothing. -/
def latch (l : Latch) : Latch := { l with closed := true }

/-- `Latch::wait()` is `Semaphore::acquire()` on a semaphore that never has
permits: the acquire can only resolve by returning the closed error, so the
call is ready exactly when the semaphore is closed. -/
def waitReady (l : Latch) : Bool := l.closed

end Latch

/-- Operations a client can perform on the latch. A `wait` is a readiness
query: it changes no state and resolves exactly when `waitReady` holds. -/
inductive LatchOp
  | trigger
  | wait
deriving DecidableEq

/-- Effect of one operation on the latch state. -/
def applyOp (l : Latch) : LatchOp → Latch
  | .trigger => l.latch
  | .wait => l

/-- Run a sequence of latch operations from a starting state. -/
def runOps (l : Latch) : List LatchOp → Latch
  | [] => l
  | op :: ops => runOps (applyOp l op) ops

/-- Number of observable state transitions along a sequence of operations. -/
def transitions (l : Latch) : List LatchOp → Nat
  | [] => 0
  | op :: ops => (if applyOp l op = l then 0 else 1) + transitions (applyOp l op) ops

/-- The latch state after `n` consecutive `trigger()` calls on a fresh latch. -/
def afterTriggers (n : Nat) : Latch :=
  runOps Latch.new (List.replicate n LatchOp.trigger)

theorem runOps_append (l : Latch) (a b : List LatchOp) :
    runOps l (a ++ b) = runOps (runOps l a) b := by
  induction a generalizing l with
  | nil => rfl
  | cons op ops ih => simp [runOps, ih]

theorem applyOp_of_closed (l : Latch) (op : LatchOp) (h : l.closed = true) :
    applyOp l op = l := by
  cases op <;> cases l <;> simp_all [applyOp, Latch.latch]

theorem runOps_closed_of_closed (l : Latch) (ops : List LatchOp)
    (h : l.closed = true) : (runOps l ops).closed = true := by
  induction ops generalizing l with
  | nil => simpa [runOps]
  | cons op ops ih =>
    rw [runOps, applyOp_of_closed l op h]
    exact ih l h

theorem latch_eq_of_closed (l : Latch) (h : l.closed = true) : l = ⟨true⟩ := by
  cases l
  simp_all

theorem transitions_trigger_closed (m : Nat) :
    transitions ⟨true⟩ (List.replicate m LatchOp.trigger) = 0 := by
  induction m with
  | zero => rfl
  | succ m ih => simp [List.replicate_succ, transitions, applyOp, Latch.latch, ih]

theorem afterTriggers_succ_eq (j : Nat) : afterTriggers (j + 1) = ⟨true⟩ := by
  have h : afterTriggers (j + 1)
      = runOps ⟨true⟩ (List.replicate j LatchOp.trigger) := by
    simp [afterTriggers, List.replicate_succ, runOps, applyOp, Latch.latch]
  rw [h]
  exact latch_eq_of_closed _ (runOps_closed_of_closed _ _ rfl)

/-- Claim C3: the latch has no missed-wakeup window. Every `wait()` issued
after a completed `trigger()` (anywhere in the operation history) is
immediately ready; once the latch is closed it stays closed and every later
`wait()` resolves; and a `trigger()` makes `wait()` ready regardless of
whether the waiter was registered before it. -/
theorem latch_no_missed_wakeup (pre post ops : List LatchOp) (l l2 : Latch)
    (h : l.closed = true) :
    (runOps Latch.new (pre ++ LatchOp.trigger :: post)).waitReady = true ∧
    (runOps l ops).closed = true ∧
    (runOps l ops).waitReady = true ∧
    (Latch.latch l2).waitReady = true := by
  refine ⟨?_, runOps_closed_of_closed l ops h, runOps_closed_of_closed l ops h, rfl⟩
  rw [runOps_append, runOps]
  exact runOps_closed_of_closed _ post rfl

/-- Witness for `latch_no_missed_wakeup` at a concrete operation history. -/
theorem latch_no_missed_wakeup_witness :
    (⟨true⟩ : Latch).closed = true ∧
    ((runOps Latch.new ([LatchOp.wait] ++ LatchOp.trigger :: [LatchOp.wait])).waitReady = true ∧
      (runOps ⟨true⟩ [LatchOp.trigger, LatchOp.wait]).closed = true ∧
      (runOps ⟨true⟩ [LatchOp.trigger, LatchOp.wait]).waitReady = true ∧
      (Latch.latch ⟨false⟩).waitReady = true) :=
  ⟨rfl, latch_no_missed_wakeup [LatchOp.wait] [LatchOp.wait]
    [LatchOp.trigger, LatchOp.wait] ⟨true⟩ ⟨false⟩ rfl⟩

/-- Claim C4: `trigger()` is idempotent. For any `n ≥ 1` calls the latch ends
closed, the OPEN→CLOSED transition happens exactly once along the sequence,
a further `trigger()` after `k ≥ 1` calls is a no-op, and the state after any
two positive numbers of calls is identical (CLOSED is terminal). -/
theorem trigger_idempotent (n k : Nat) (hn : 1 ≤ n) (hk : 1 ≤ k) :
    (afterTriggers n).closed = true ∧
    transitions Latch.new (List.replicate n LatchOp.trigger) = 1 ∧
    applyOp (afterTriggers k) LatchOp.trigger = afterTriggers k ∧
    afterTriggers n = afterTriggers k := by
  obtain ⟨m, rfl⟩ : ∃ m, n = m + 1 := ⟨n - 1, by omega⟩
  obtain ⟨j, rfl⟩ : ∃ j, k = j + 1 := ⟨k - 1, by omega⟩
  refine ⟨by rw [afterTriggers_succ_eq], ?_, ?_, ?_⟩
  · have hstep : applyOp Latch.new LatchOp.trigger = (⟨true⟩ : Latch) := rfl
    have hne : ¬ applyOp Latch.new LatchOp.trigger = Latch.new := by
      rw [hstep]
      intro hcontra
      exact Bool.noConfusion (congrArg Latch.closed hcontra)
    simp only [List.replicate_succ, transitions]
    rw [if_neg hne, hstep, transitions_trigger_closed]
  · rw [afterTriggers_succ_eq]
    rfl
  · rw [afterTriggers_succ_eq, afterTriggers_succ_eq]

/-- Witness for `trigger_idempotent`: three calls behave like two. -/
theorem trigger_idempotent_witness :
    1 ≤ 3 ∧ 1 ≤ 2 ∧
    ((afterTriggers 3).closed = true ∧
      transitions Latch.new (List.replicate 3 LatchOp.trigger) = 1 ∧
      applyOp (afterTriggers 2) LatchOp.trigger = afterTriggers 2 ∧
      afterTriggers 3 = afterTriggers 2) :=
  ⟨by decide, by decide, trigger_idempotent 3 2 (by decide) (by decide)⟩

/-- Whether the spawned server task ended with `Ok` or `Err`
(`serve_with_shutdown`'s result, or a join error). -/
inductive ServerResult
  | ok
  | err
deriving DecidableEq

/-- Terminal state of the race in `main`'s `tokio::select!`. -/
inductive Outcome
  | graceful
  | forced
deriving DecidableEq

/-- One execution of the program after a successful startup, described by its
environment: when SIGINTs are delivered, whether and when the server task
fails organically, how long the drain takes once the latch closes, the
configured `--grace-period-ms`, and which branch `tokio::select!` happens to
poll first when both are ready in the same instant (the macro polls branches
in random order). -/
structure Exec where
  sigTimes : List Nat
  organicErrTime : Option Nat
  drainDuration : Nat
  gracePeriodMs : Option Nat
  pollGracefulFirst : Bool

/-- Time of the first delivered signal, if any. The spawned listener task in
`shutdown_signal` performs a single `sig.recv().await` and then calls
`tx.latch()`, so only the earliest signal has any effect. -/
def firstSignal : List Nat → Option Nat
  | [] => none
  | t :: ts =>
    match firstSignal ts with
    | none => some t
    | some u => some (min t u)

/-- Time the latch closes: the first SIGINT latches the shutdown signal. -/
def latchCloseTime (e : Exec) : Option Nat := firstSignal e.sigTimes

/-- Time at which the drain triggered by the latch would complete: the server
observes `shutdown.wait()` at the close time and needs `drainDuration` more
milliseconds for in-flight work. -/
def drainDoneTime (e : Exec) : Option Nat :=
  (latchCloseTime e).map (fun ts => ts + e.drainDuration)

/-- Termination of the spawned server task (`graceful_exit`'s join handle):
the earlier of an organic failure and the shutdown-triggered drain; `none`
when neither ever happens. -/
def serverTermination (e : Exec) : Option (Nat × ServerResult) :=
  match e.organicErrTime, drainDoneTime e with
  | none, none => none
  | some te, none => some (te, ServerResult.err)
  | none, some td => some (td, ServerResult.ok)
  | some te, some td =>
    if te < td then some (te, ServerResult.err) else some (td, ServerResult.ok)

/-- Instant at which the `graceful_exit` branch of the `tokio::select!` is
ready: the join handle has completed (with whatever `Result`), and `main`
only reaches the race once its own `shutdown.wait()` has returned. -/
def gracefulReadyTime (e : Exec) : Option Nat :=
  (latchCloseTime e).bind fun ts =>
    (serverTermination e).map fun p => max p.1 ts

/-- Instant at which the `ungraceful_exit` branch is ready: the grace timer
started when `main` resumed, or never when no `--grace-period-ms` was given
(`std::future::pending()` never resolves). -/
def timeoutReadyTime (e : Exec) : Option Nat :=
  (latchCloseTime e).bind fun ts =>
    e.gracePeriodMs.map fun g => ts + g

/-- `tokio::select!` over the two branches: the strictly earlier branch wins;
when both are ready in the same instant the branch polled first wins. -/
def pickWinner (pollGracefulFirst : Bool) :
    Option Nat → Option Nat → Option (Outcome × Nat)
  | none, none => none
  | some tg, none => some (Outcome.graceful, tg)
  | none, some tu => some (Outcome.forced, tu)
  | some tg, some tu =>
    if tg < tu then some (Outcome.graceful, tg)
    else if tu < tg then some (Outcome.forced, tu)
    else if pollGracefulFirst then some (Outcome.graceful, tg)
    else some (Outcome.forced, tu)

/-- Result of the race in `main`, with the time it resolves. `none` means the
process never exits: either no signal ever arrives (`main` stays blocked at
`shutdown.wait()`), or both branches pend forever. -/
def raceOutcome (e : Exec) : Option (Outcome × Nat) :=
  match latchCloseTime e with
  | none => none
  | some _ => pickWinner e.pollGracefulFirst (gracefulReadyTime e) (timeoutReadyTime e)

/-- Observable steps of `main` after a successful startup, in program order. -/
inductive MainEvent
  | logListening
  | latchWaitReturned
  | logUnhealthy
  | setStatus (service : String) (status : ServingStatus)
  | raceStart
  | logGracefulExit
  | logForcedShutdown
deriving DecidableEq

/-- The straight-line event trace of `main` (lines 29-62): log the listening
message, block on `shutdown.wait()`, log and set the health status of the
default service to `NotServing`, start the `tokio::select!` race, and log
which branch won. Without a signal, `main` never gets past `wait()`. -/
def mainEvents (e : Exec) : List MainEvent :=
  match latchCloseTime e with
  | none => [MainEvent.logListening]
  | some _ =>
    MainEvent.logListening :: MainEvent.latchWaitReturned :: MainEvent.logUnhealthy ::
      MainEvent.setStatus "" ServingStatus.NotServing :: MainEvent.raceStart ::
      (match raceOutcome e with
       | some (Outcome.graceful, _) => [MainEvent.logGracefulExit]
       | some (Outcome.forced, _) => [MainEvent.logForcedShutdown]
       | none => [])

/-- Health status of the default service `""` at time `t`: `Serving` until
`main` executes `set_service_status("", NotServing)` upon waking from
`shutdown.wait()`, `NotServing` from then on. -/
def statusAt (e : Exec) (t : Nat) : ServingStatus :=
  match latchCloseTime e with
  | none => ServingStatus.Serving
  | some ts => if ts ≤ t then ServingStatus.NotServing else ServingStatus.Serving

/-- Recognises a `set_service_status` call in the event trace. -/
def isStatusWrite : MainEvent → Bool
  | MainEvent.setStatus _ _ => true
  | _ => false

/-- Recognises the start of the grace-period race in the event trace. -/
def isRaceStart : MainEvent → Bool
  | MainEvent.raceStart => true
  | _ => false

/-- The three fallible startup steps of `main`, in evaluation order: the
reflection-service build (line 23, `.build_v1()?`), installation of the
SIGINT handler (line 25 via `shutdown_signal`, `signal(...)?`), and parsing
of `--address` (line 33, `address.parse()?`, evaluated before
`tokio::spawn` receives the serve future). -/
structure StartupEnv where
  reflectionBuildOk : Bool
  signalInstallOk : Bool
  addressParses : Bool
deriving DecidableEq

/-- Which startup step failed, if any. -/
inductive StartupError
  | reflectionBuildError
  | signalInstallError
  | addressParseError
deriving DecidableEq

/-- The `?`-operator chain of `main`'s startup: the first failing step aborts
`main` with an `anyhow` error. -/
def startup (s : StartupEnv) : Except StartupError Unit :=
  if s.reflectionBuildOk = false then Except.error StartupError.reflectionBuildError
  else if s.signalInstallOk = false then Except.error StartupError.signalInstallError
  else if s.addressParses = false then Except.error StartupError.addressParseError
  else Except.ok ()

/-- Whether startup succeeded. -/
def startupOk (s : StartupEnv) : Bool :=
  match startup s with
  | Except.ok _ => true
  | Except.error _ => false

/-- The server task is spawned (RUNNING is entered) only when every startup
step succeeded: all three `?`s sit before or inside the expression handed to
`tokio::spawn`. -/
def serverSpawned (s : StartupEnv) : Bool := startupOk s

/-- A startup environment in which every step succeeds. -/
def okStartup : StartupEnv := ⟨true, true, true⟩

/-- Exit code of the process: a startup failure makes `main` return an `Err`,
which the `Termination` impl maps to exit code 1; both branches of the race
fall through to `Ok(())`, exit code 0. `none` means the process never
exits. -/
def exitCode (s : StartupEnv) (e : Exec) : Option Nat :=
  match startup s with
  | Except.error _ => some 1
  | Except.ok _ => (raceOutcome e).map (fun _ => 0)

/-- Claim C5: with `--grace-period-ms 0` the grace timer fires at the very
instant `main` resumes from `shutdown.wait()`, so with in-flight work still
draining the race is decided immediately as a forced shutdown at the signal
instant; the configuration is legitimate and the process exits 0. -/
theorem grace_zero_forced (e : Exec) (ts : Nat)
    (hg : e.gracePeriodMs = some 0)
    (hs : latchCloseTime e = some ts)
    (ho : e.organicErrTime = none)
    (hd : 0 < e.drainDuration) :
    raceOutcome e = some (Outcome.forced, ts) ∧
    exitCode okStartup e = some 0 := by
  have hdd : drainDoneTime e = some (ts + e.drainDuration) := by
    simp [drainDoneTime, hs]
  have hterm : serverTermination e = some (ts + e.drainDuration, ServerResult.ok) := by
    simp [serverTermination, ho, hdd]
  have hmax : max (ts + e.drainDuration) ts = ts + e.drainDuration := by omega
  have hgr : gracefulReadyTime e = some (ts + e.drainDuration) := by
    simp [gracefulReadyTime, hs, hterm, hmax]
  have htu : timeoutReadyTime e = some ts := by
    simp [timeoutReadyTime, hs, hg]
  have hrace : raceOutcome e = some (Outcome.forced, ts) := by
    simp only [raceOutcome, hs]
    simp only [hgr, htu, pickWinner]
    rw [if_neg (by omega), if_pos (by omega)]
  exact ⟨hrace, by simp [exitCode, okStartup, startup, hrace]⟩

/-- Witness for `grace_zero_forced`: signal at 4, drain needs 7ms, grace 0. -/
theorem grace_zero_forced_witness :
    (⟨[4], none, 7, some 0, false⟩ : Exec).gracePeriodMs = some 0 ∧
    latchCloseTime ⟨[4], none, 7, some 0, false⟩ = some 4 ∧
    (0 : Nat) < 7 ∧
    (raceOutcome ⟨[4], none, 7, some 0, false⟩ = some (Outcome.forced, 4) ∧
      exitCode okStartup ⟨[4], none, 7, some 0, false⟩ = some 0) :=
  ⟨rfl, rfl, by decide,
    grace_zero_forced ⟨[4], none, 7, some 0, false⟩ 4 rfl rfl rfl (by decide)⟩

/-- Claim C6: with no `--grace-period-ms`, the `ungraceful_exit` branch is
`std::future::pending()` and never becomes ready, so the race can only be
won by the drain: the outcome is graceful at drain completion, however long
the drain takes, and a forced outcome is impossible. -/
theorem unbounded_grace_graceful (e : Exec) (ts t : Nat)
    (hg : e.gracePeriodMs = none)
    (hs : latchCloseTime e = some ts)
    (ho : e.organicErrTime = none) :
    timeoutReadyTime e = none ∧
    raceOutcome e = some (Outcome.graceful, ts + e.drainDuration) ∧
    raceOutcome e ≠ some (Outcome.forced, t) := by
  have hdd : drainDoneTime e = some (ts + e.drainDuration) := by
    simp [drainDoneTime, hs]
  have hterm : serverTermination e = some (ts + e.drainDuration, ServerResult.ok) := by
    simp [serverTermination, ho, hdd]
  have hmax : max (ts + e.drainDuration) ts = ts + e.drainDuration := by omega
  have hgr : gracefulReadyTime e = some (ts + e.drainDuration) := by
    simp [gracefulReadyTime, hs, hterm, hmax]
  have htu : timeoutReadyTime e = none := by
    simp [timeoutReadyTime, hs, hg]
  have hrace : raceOutcome e = some (Outcome.graceful, ts + e.drainDuration) := by
    simp only [raceOutcome, hs]
    simp only [hgr, htu, pickWinner]
  refine ⟨htu, hrace, ?_⟩
  rw [hrace]
  simp

/-- Witness for `unbounded_grace_graceful`: signal at 2, drain needs 200ms,
no grace period configured. -/
theorem unbounded_grace_graceful_witness :
    (⟨[2], none, 200, none, false⟩ : Exec).gracePeriodMs = none ∧
    latchCloseTime ⟨[2], none, 200, none, false⟩ = some 2 ∧
    (timeoutReadyTime ⟨[2], none, 200, none, false⟩ = none ∧
      raceOutcome ⟨[2], none, 200, none, false⟩ = some (Outcome.graceful, 202) ∧
      raceOutcome ⟨[2], none, 200, none, false⟩ ≠ some (Outcome.forced, 50)) :=
  ⟨rfl, rfl, unbounded_grace_graceful ⟨[2], none, 200, none, false⟩ 2 50 rfl rfl rfl⟩

/-- Counterexample to claim C1 as stated. The server task fails organically at
time 5, strictly before the only SIGINT at time 10 (the service is RUNNING and
no shutdown signal has been sent), yet the error does not propagate: `main` is
blocked at `shutdown.wait()` (line 39), the `tokio::select!` later discards
the join handle's `Err`, the race is reported as the graceful branch, and the
process exits 0 — not non-zero. -/
theorem organic_error_not_fatal_counterexample :
    (⟨[10], some 5, 3, some 100, false⟩ : Exec).organicErrTime = some 5 ∧
    latchCloseTime ⟨[10], some 5, 3, some 100, false⟩ = some 10 ∧
    (5 : Nat) < 10 ∧
    serverTermination ⟨[10], some 5, 3, some 100, false⟩ = some (5, ServerResult.err) ∧
    raceOutcome ⟨[10], some 5, 3, some 100, false⟩ = some (Outcome.graceful, 10) ∧
    exitCode okStartup ⟨[10], some 5, 3, some 100, false⟩ = some 0 := by
  decide

/-- Claim C1 as amended: an organic server error while RUNNING (before any
signal) is not propagated. Without a signal the process never exits (`main`
stays blocked at `shutdown.wait()`); once a signal arrives, the
already-terminated server task makes the graceful branch ready at the signal
instant, so with a positive or unbounded grace period the outcome is reported
as graceful and the process exits 0. -/
theorem organic_error_masked (e : Exec) (te ts : Nat)
    (ho : e.organicErrTime = some te)
    (hs : latchCloseTime e = some ts)
    (hlt : te < ts)
    (hg : e.gracePeriodMs = none ∨ ∃ g, e.gracePeriodMs = some g ∧ 0 < g) :
    serverTermination e = some (te, ServerResult.err) ∧
    raceOutcome e = some (Outcome.graceful, ts) ∧
    exitCode okStartup e = some 0 ∧
    exitCode okStartup
      ⟨[], e.organicErrTime, e.drainDuration, e.gracePeriodMs, e.pollGracefulFirst⟩ = none := by
  have hdd : drainDoneTime e = some (ts + e.drainDuration) := by
    simp [drainDoneTime, hs]
  have hterm : serverTermination e = some (te, ServerResult.err) := by
    simp only [serverTermination, ho, hdd]
    rw [if_pos (by omega)]
  have hmax : max te ts = ts := by omega
  have hgr : gracefulReadyTime e = some ts := by
    simp [gracefulReadyTime, hs, hterm, hmax]
  have hrace : raceOutcome e = some (Outcome.graceful, ts) := by
    rcases hg with hgn | ⟨g, hgs, hgpos⟩
    · have htu : timeoutReadyTime e = none := by
        simp [timeoutReadyTime, hs, hgn]
      simp only [raceOutcome, hs]
      simp only [hgr, htu, pickWinner]
    · have htu : timeoutReadyTime e = some (ts + g) := by
        simp [timeoutReadyTime, hs, hgs]
      simp only [raceOutcome, hs]
      simp only [hgr, htu, pickWinner]
      rw [if_pos (by omega)]
  refine ⟨hterm, hrace, by simp [exitCode, okStartup, startup, hrace], ?_⟩
  simp [exitCode, okStartup, startup, raceOutcome, latchCloseTime, firstSignal]

/-- Witness for `organic_error_masked`: error at 5, lone signal at 10. -/
theorem organic_error_masked_witness :
    (⟨[10], some 5, 3, some 100, false⟩ : Exec).organicErrTime = some 5 ∧
    latchCloseTime ⟨[10], some 5, 3, some 100, false⟩ = some 10 ∧
    (5 : Nat) < 10 ∧
    (serverTermination ⟨[10], some 5, 3, some 100, false⟩ = some (5, ServerResult.err) ∧
      raceOutcome ⟨[10], some 5, 3, some 100, false⟩ = some (Outcome.graceful, 10) ∧
      exitCode okStartup ⟨[10], some 5, 3, some 100, false⟩ = some 0 ∧
      exitCode okStartup ⟨[], some 5, 3, some 100, false⟩ = none) :=
  ⟨rfl, rfl, by decide,
    organic_error_masked ⟨[10], some 5, 3, some 100, false⟩ 5 10 rfl rfl (by decide)
      (Or.inr ⟨100, rfl, by decide⟩)⟩

/-- Counterexample to claim C2 as stated. The drain completes at time 5 and
the grace timer also fires at time 5 (signal at 0, drain 5ms, grace 5ms); both
branches of the `tokio::select!` are ready in the same instant, and in the
execution where the macro's random poll order tries the graceful branch first
the outcome is graceful, not forced: the code has no `biased;` clause and no
deterministic timeout-wins tie-break. -/
theorem tie_not_forced_counterexample :
    gracefulReadyTime ⟨[0], none, 5, some 5, true⟩ = some 5 ∧
    timeoutReadyTime ⟨[0], none, 5, some 5, true⟩ = some 5 ∧
    raceOutcome ⟨[0], none, 5, some 5, true⟩ = some (Outcome.graceful, 5) := by
  decide

/-- Claim C2 as amended: when the drain-complete and grace-timeout branches
become ready in the same instant, the winner is whichever branch the
unbiased `tokio::select!` happens to poll first — the timeout does not
deterministically win ties. -/
theorem tie_decided_by_poll_order (e : Exec) (t : Nat)
    (h1 : gracefulReadyTime e = some t)
    (h2 : timeoutReadyTime e = some t) :
    raceOutcome e = some (cond e.pollGracefulFirst Outcome.graceful Outcome.forced, t) := by
  rcases hs : latchCloseTime e with _ | ts
  · simp [timeoutReadyTime, hs] at h2
  · simp only [raceOutcome, hs]
    simp only [h1, h2, pickWinner]
    rw [if_neg (lt_irrefl t), if_neg (lt_irrefl t)]
    cases hp : e.pollGracefulFirst <;> simp

/-- Witness for `tie_decided_by_poll_order`: the same tie with the other poll
order yields the forced outcome. -/
theorem tie_decided_by_poll_order_witness :
    gracefulReadyTime ⟨[0], none, 5, some 5, false⟩ = some 5 ∧
    timeoutReadyTime ⟨[0], none, 5, some 5, false⟩ = some 5 ∧
    raceOutcome ⟨[0], none, 5, some 5, false⟩ =
      some (cond (⟨[0], none, 5, some 5, false⟩ : Exec).pollGracefulFirst
        Outcome.graceful Outcome.forced, 5) :=
  ⟨rfl, rfl, tie_decided_by_poll_order ⟨[0], none, 5, some 5, false⟩ 5 rfl rfl⟩

/-- Claim C7: the health status of the default service is monotonic — once it
reads `NotServing` it reads `NotServing` at every later time — the trace of
`main` contains exactly one status write, that write is
`set_service_status("", NotServing)`, and it sits strictly before the start
of the grace-period race. -/
theorem status_monotonic_before_race (e : Exec) (ts t1 t2 : Nat)
    (hs : latchCloseTime e = some ts)
    (hle : t1 ≤ t2)
    (hn : statusAt e t1 = ServingStatus.NotServing) :
    statusAt e t2 = ServingStatus.NotServing ∧
    (mainEvents e).countP isStatusWrite = 1 ∧
    MainEvent.setStatus "" ServingStatus.NotServing ∈ mainEvents e ∧
    List.take 5 (mainEvents e) =
      [MainEvent.logListening, MainEvent.latchWaitReturned, MainEvent.logUnhealthy,
        MainEvent.setStatus "" ServingStatus.NotServing, MainEvent.raceStart] := by
  have hmono : statusAt e t2 = ServingStatus.NotServing := by
    simp only [statusAt, hs] at hn ⊢
    by_cases h : ts ≤ t1
    · rw [if_pos (show ts ≤ t2 by omega)]
    · rw [if_neg h] at hn
      exact absurd hn (by decide)
  have hev : ∃ tail,
      (tail = [] ∨ tail = [MainEvent.logGracefulExit] ∨ tail = [MainEvent.logForcedShutdown]) ∧
      mainEvents e = MainEvent.logListening :: MainEvent.latchWaitReturned ::
        MainEvent.logUnhealthy :: MainEvent.setStatus "" ServingStatus.NotServing ::
        MainEvent.raceStart :: tail := by
    rcases hro : raceOutcome e with _ | ⟨o, tt⟩
    · exact ⟨[], Or.inl rfl, by simp only [mainEvents, hs, hro]⟩
    · cases o
      · exact ⟨[MainEvent.logGracefulExit], Or.inr (Or.inl rfl),
          by simp only [mainEvents, hs, hro]⟩
      · exact ⟨[MainEvent.logForcedShutdown], Or.inr (Or.inr rfl),
          by simp only [mainEvents, hs, hro]⟩
  obtain ⟨tail, htail, hev⟩ := hev
  refine ⟨hmono, ?_, ?_, ?_⟩ <;> rw [hev] <;> rcases htail with rfl | rfl | rfl <;> decide

/-- Witness for `status_monotonic_before_race`: signal at 3, sampled at 5 and 9. -/
theorem status_monotonic_before_race_witness :
    latchCloseTime ⟨[3], none, 4, some 10, false⟩ = some 3 ∧
    (5 : Nat) ≤ 9 ∧
    statusAt ⟨[3], none, 4, some 10, false⟩ 5 = ServingStatus.NotServing ∧
    (statusAt ⟨[3], none, 4, some 10, false⟩ 9 = ServingStatus.NotServing ∧
      (mainEvents ⟨[3], none, 4, some 10, false⟩).countP isStatusWrite = 1 ∧
      MainEvent.setStatus "" ServingStatus.NotServing ∈ mainEvents ⟨[3], none, 4, some 10, false⟩ ∧
      List.take 5 (mainEvents ⟨[3], none, 4, some 10, false⟩) =
        [MainEvent.logListening, MainEvent.latchWaitReturned, MainEvent.logUnhealthy,
          MainEvent.setStatus "" ServingStatus.NotServing, MainEvent.raceStart]) :=
  ⟨rfl, by decide, by decide,
    status_monotonic_before_race ⟨[3], none, 4, some 10, false⟩ 3 5 9 rfl (by decide) (by decide)⟩

theorem sig_congr (s1 s2 : List Nat) (oe : Option Nat) (d : Nat) (g : Option Nat)
    (p : Bool) (h : firstSignal s1 = firstSignal s2) :
    raceOutcome ⟨s1, oe, d, g, p⟩ = raceOutcome ⟨s2, oe, d, g, p⟩ ∧
    mainEvents ⟨s1, oe, d, g, p⟩ = mainEvents ⟨s2, oe, d, g, p⟩ ∧
    ∀ τ, statusAt ⟨s1, oe, d, g, p⟩ τ = statusAt ⟨s2, oe, d, g, p⟩ τ := by
  rcases hfs : firstSignal s1 with _ | ts
  · have hfs2 : firstSignal s2 = none := by rw [← h, hfs]
    have hr : raceOutcome ⟨s1, oe, d, g, p⟩ = raceOutcome ⟨s2, oe, d, g, p⟩ := by
      simp only [raceOutcome, latchCloseTime, hfs, hfs2]
    refine ⟨hr, ?_, ?_⟩
    · simp only [mainEvents, latchCloseTime, hfs, hfs2]
    · intro τ
      simp only [statusAt, latchCloseTime, hfs, hfs2]
  · have hfs2 : firstSignal s2 = some ts := by rw [← h, hfs]
    have hr : raceOutcome ⟨s1, oe, d, g, p⟩ = raceOutcome ⟨s2, oe, d, g, p⟩ := by
      simp only [raceOutcome, gracefulReadyTime, timeoutReadyTime, serverTermination,
        drainDoneTime, latchCloseTime, hfs, hfs2]
    refine ⟨hr, ?_, ?_⟩
    · simp only [mainEvents, latchCloseTime, hfs, hfs2, hr]
    · intro τ
      simp only [statusAt, latchCloseTime, hfs, hfs2]

/-- Claim C8: a second SIGINT delivered after the first changes nothing. The
race result, the whole event trace, and the status timeline coincide with the
single-signal execution; DRAINING (the race) is entered exactly once and the
status is flipped exactly once. -/
theorem double_signal_equiv (oe : Option Nat) (d : Nat) (g : Option Nat) (p : Bool)
    (t u τ : Nat) (h : t ≤ u) :
    raceOutcome ⟨[t, u], oe, d, g, p⟩ = raceOutcome ⟨[t], oe, d, g, p⟩ ∧
    mainEvents ⟨[t, u], oe, d, g, p⟩ = mainEvents ⟨[t], oe, d, g, p⟩ ∧
    statusAt ⟨[t, u], oe, d, g, p⟩ τ = statusAt ⟨[t], oe, d, g, p⟩ τ ∧
    (mainEvents ⟨[t, u], oe, d, g, p⟩).countP isRaceStart = 1 ∧
    (mainEvents ⟨[t, u], oe, d, g, p⟩).countP isStatusWrite = 1 := by
  have hfs : firstSignal [t, u] = firstSignal [t] := by
    simp only [firstSignal]
    rw [min_eq_left h]
  obtain ⟨h1, h2, h3⟩ := sig_congr [t, u] [t] oe d g p hfs
  have hft : latchCloseTime (⟨[t], oe, d, g, p⟩ : Exec) = some t := rfl
  refine ⟨h1, h2, h3 τ, ?_, ?_⟩ <;> rw [h2] <;>
    rcases hro : raceOutcome (⟨[t], oe, d, g, p⟩ : Exec) with _ | ⟨o, tt⟩
  · simp only [mainEvents, hft, hro]
    decide
  · cases o <;> simp only [mainEvents, hft, hro] <;> decide
  · simp only [mainEvents, hft, hro]
    decide
  · cases o <;> simp only [mainEvents, hft, hro] <;> decide

/-- Witness for `double_signal_equiv`: signals at 3 and 4. -/
theorem double_signal_equiv_witness :
    (3 : Nat) ≤ 4 ∧
    (raceOutcome ⟨[3, 4], none, 10, some 100, false⟩ = raceOutcome ⟨[3], none, 10, some 100, false⟩ ∧
      mainEvents ⟨[3, 4], none, 10, some 100, false⟩ = mainEvents ⟨[3], none, 10, some 100, false⟩ ∧
      statusAt ⟨[3, 4], none, 10, some 100, false⟩ 6 = statusAt ⟨[3], none, 10, some 100, false⟩ 6 ∧
      (mainEvents ⟨[3, 4], none, 10, some 100, false⟩).countP isRaceStart = 1 ∧
      (mainEvents ⟨[3, 4], none, 10, some 100, false⟩).countP isStatusWrite = 1) :=
  ⟨by decide, double_signal_equiv none 10 (some 100) false 3 4 6 (by decide)⟩

/-- Claim C9: both race outcomes exit with code 0, while a malformed
`--address` or a failed SIGINT-handler installation makes `main` return an
error before the server task is ever spawned, exiting with the non-zero
code 1. -/
theorem exit_codes (s : StartupEnv) (e eF : Exec) (o : Outcome) (t : Nat)
    (hr : raceOutcome e = some (o, t))
    (hfail : s.addressParses = false ∨ s.signalInstallOk = false) :
    exitCode okStartup e = some 0 ∧
    exitCode s eF = some 1 ∧
    serverSpawned s = false := by
  have h2 : exitCode s eF = some 1 ∧ serverSpawned s = false := by
    rcases s with ⟨r, si, a⟩
    rcases hfail with hf | hf
    · subst hf
      cases r <;> cases si <;> simp [exitCode, startup, serverSpawned, startupOk]
    · subst hf
      cases r <;> cases a <;> simp [exitCode, startup, serverSpawned, startupOk]
  exact ⟨by simp [exitCode, okStartup, startup, hr], h2.1, h2.2⟩

/-- Witness for `exit_codes`: a forced-shutdown run exits 0; a run whose
address fails to parse exits 1 without spawning the server. -/
theorem exit_codes_witness :
    raceOutcome ⟨[4], none, 7, some 0, false⟩ = some (Outcome.forced, 4) ∧
    ((⟨true, true, false⟩ : StartupEnv).addressParses = false ∨
      (⟨true, true, false⟩ : StartupEnv).signalInstallOk = false) ∧
    (exitCode okStartup ⟨[4], none, 7, some 0, false⟩ = some 0 ∧
      exitCode ⟨true, true, false⟩ ⟨[4], none, 7, some 0, false⟩ = some 1 ∧
      serverSpawned ⟨true, true, false⟩ = false) :=
  ⟨by decide, Or.inl rfl,
    exit_codes ⟨true, true, false⟩ ⟨[4], none, 7, some 0, false⟩
      ⟨[4], none, 7, some 0, false⟩ Outcome.forced 4 (by decide) (Or.inl rfl)⟩

/-- Claim C10: if the server task fails during DRAINING (after the signal,
before the drain deadline and within the grace window), its `Err` terminates
the join handle, the graceful branch of the race wins at that instant, the
graceful-exit message is logged and the process exits 0 — exactly as in a
clean drain that completes at the same instant, whose race outcome is
identical. -/
theorem drain_error_discarded (e : Exec) (te ts : Nat)
    (hs : latchCloseTime e = some ts)
    (ho : e.organicErrTime = some te)
    (h1 : ts ≤ te)
    (h2 : te < ts + e.drainDuration)
    (hg : e.gracePeriodMs = none ∨ ∃ g, e.gracePeriodMs = some g ∧ te < ts + g) :
    serverTermination e = some (te, ServerResult.err) ∧
    raceOutcome e = some (Outcome.graceful, te) ∧
    exitCode okStartup e = some 0 ∧
    MainEvent.logGracefulExit ∈ mainEvents e ∧
    raceOutcome e =
      raceOutcome ⟨e.sigTimes, none, te - ts, e.gracePeriodMs, e.pollGracefulFirst⟩ := by
  have hs2 : latchCloseTime
      ⟨e.sigTimes, none, te - ts, e.gracePeriodMs, e.pollGracefulFirst⟩ = some ts := hs
  have hdd : drainDoneTime e = some (ts + e.drainDuration) := by
    simp [drainDoneTime, hs]
  have hterm : serverTermination e = some (te, ServerResult.err) := by
    simp only [serverTermination, ho, hdd]
    rw [if_pos (by omega)]
  have hmax : max te ts = te := by omega
  have hgr : gracefulReadyTime e = some te := by
    simp [gracefulReadyTime, hs, hterm, hmax]
  have hdd2 : drainDoneTime
      ⟨e.sigTimes, none, te - ts, e.gracePeriodMs, e.pollGracefulFirst⟩ = some te := by
    simp only [drainDoneTime, hs2, Option.map_some']
    rw [show ts + (te - ts) = te by omega]
  have hterm2 : serverTermination
      ⟨e.sigTimes, none, te - ts, e.gracePeriodMs, e.pollGracefulFirst⟩ =
      some (te, ServerResult.ok) := by
    simp [serverTermination, hdd2]
  have hgr2 : gracefulReadyTime
      ⟨e.sigTimes, none, te - ts, e.gracePeriodMs, e.pollGracefulFirst⟩ = some te := by
    simp [gracefulReadyTime, hs2, hterm2, hmax]
  have key : raceOutcome e = some (Outcome.graceful, te) ∧
      raceOutcome ⟨e.sigTimes, none, te - ts, e.gracePeriodMs, e.pollGracefulFirst⟩ =
        some (Outcome.graceful, te) := by
    rcases hg with hgn | ⟨g, hgs, hglt⟩
    · have htu : timeoutReadyTime e = none := by
        simp [timeoutReadyTime, hs, hgn]
      have htu2 : timeoutReadyTime
          ⟨e.sigTimes, none, te - ts, e.gracePeriodMs, e.pollGracefulFirst⟩ = none := htu
      constructor
      · simp only [raceOutcome, hs]
        simp only [hgr, htu, pickWinner]
      · simp only [raceOutcome, hs2]
        simp only [hgr2, htu2, pickWinner]
    · have htu : timeoutReadyTime e = some (ts + g) := by
        simp [timeoutReadyTime, hs, hgs]
      have htu2 : timeoutReadyTime
          ⟨e.sigTimes, none, te - ts, e.gracePeriodMs, e.pollGracefulFirst⟩ = some (ts + g) := htu
      constructor
      · simp only [raceOutcome, hs]
        simp only [hgr, htu, pickWinner]
        rw [if_pos (by omega)]
      · simp only [raceOutcome, hs2]
        simp only [hgr2, htu2, pickWinner]
        rw [if_pos (by omega)]
  refine ⟨hterm, key.1, by simp [exitCode, okStartup, startup, key.1], ?_,
    by rw [key.1, key.2]⟩
  simp only [mainEvents, hs, key.1]
  decide

/-- Witness for `drain_error_discarded`: signal at 2, server fails at 6 while
draining (deadline 12, grace until 102). -/
theorem drain_error_discarded_witness :
    latchCloseTime ⟨[2], some 6, 10, some 100, false⟩ = some 2 ∧
    (2 : Nat) ≤ 6 ∧
    (6 : Nat) < 2 + 10 ∧
    (serverTermination ⟨[2], some 6, 10, some 100, false⟩ = some (6, ServerResult.err) ∧
      raceOutcome ⟨[2], some 6, 10, some 100, false⟩ = some (Outcome.graceful, 6) ∧
      exitCode okStartup ⟨[2], some 6, 10, some 100, false⟩ = some 0 ∧
      MainEvent.logGracefulExit ∈ mainEvents ⟨[2], some 6, 10, some 100, false⟩ ∧
      raceOutcome ⟨[2], some 6, 10, some 100, false⟩ =
        raceOutcome ⟨[2], none, 4, some 100, false⟩) :=
  ⟨rfl, by decide, by decide,
    drain_error_discarded ⟨[2], some 6, 10, some 100, false⟩ 6 2 rfl rfl (by decide)
      (by decide) (Or.inr ⟨100, rfl, by decide⟩)⟩

end TonicShutdown
